import Mathlib

/-!
Verification development for the tunnel/chaining core of the
`remote-machine` repository (`remote_machine/actions/proxy.py`,
`remote_machine/protocols/ssh.py`, `remote_machine/core.py`,
`remote_machine/models/proxy_types.py`, `remote_machine/models/remote_state.py`).

The Python source is shallowly embedded: dataclasses become structures,
methods become functions, the outcomes of external I/O operations
(socket bind, accept, recv, dial, SSH handshake, authentication) are inputs
of the embedded functions, and exceptions are modelled with `Except` /
`Option PyExn` fields. The relevant fragment of Python's object semantics —
that an attribute declared with `@property` evaluates to its value on
attribute access, and that calling a non-callable raises `TypeError` —
is embedded explicitly, because `proxy.py` depends on it.
-/

namespace RemoteMachineModel

/-! ## Exceptions

Exception kinds that can arise in the embedded fragment.  `typeError`,
`attributeError`, `osError`, `osErrorAddrInUse`, `connectionRefused` and
`valueError` are
Python built-ins; `sshException` and `authenticationError` model paramiko's
`SSHException` and `AuthenticationException`; `connectionUnavailable` and
`addressInUse` model the error classes named by the specification's taxonomy
(the source under `remote_machine/errors/exceptions.py` defines no class with
either name, and no code path raises them; they are present so that theorems
can state what the code does *not* raise). -/

inductive PyExn where
  | typeError
  | attributeError
  | osError
  | osErrorAddrInUse
  | connectionRefused
  | valueError
  | sshException
  | authenticationError
  | connectionUnavailable
  | addressInUse
  deriving DecidableEq, Repr

/-! ## Python values and calling

Only the fragment needed by `proxy.py` is embedded: boolean values (what the
`is_connected` property evaluates to) and the rule that calling a
non-callable object raises `TypeError`. -/

inductive PyVal where
  | bool (b : Bool)
  deriving DecidableEq, Repr

/-- Python call semantics on the embedded values: a `bool` is not callable,
so calling it raises `TypeError` (the message in CPython is
"'bool' object is not callable"). -/
def pyCallVal : PyVal → Except PyExn PyVal
  | .bool _ => .error .typeError

/-- Python truthiness of an embedded value. -/
def pyTruthy : PyVal → Bool
  | .bool b => b

/-! ## SSHProtocol (`remote_machine/protocols/ssh.py`)

`__init__` stores host/user/credentials/port and sets `_client = None`.
`connect` sets `_client` to a live `paramiko.SSHClient`; `disconnect` resets
it to `None`. The presence of `_client` is all that the embedded fragment
needs, so it is modelled as `client : Option Unit`. -/

structure SSHProtocol where
  host : String
  user : String
  key_path : Option String := none
  password : Option String := none
  port : Nat := 22
  client : Option Unit := none
  deriving DecidableEq, Repr

/-- `SSHProtocol.is_connected` (ssh.py lines 44-47): a `@property` whose
getter returns `self._client is not None`. -/
def SSHProtocol.is_connected (s : SSHProtocol) : Bool :=
  s.client.isSome

/-- Accessing the attribute `ssh.is_connected`: because `is_connected` is
declared with `@property`, attribute access invokes the getter and yields
the resulting `bool` value (not a bound method). -/
def SSHProtocol.getattrIsConnected (s : SSHProtocol) : PyVal :=
  .bool s.is_connected

/-! ## Proxy (`remote_machine/models/proxy_types.py`)

The `Proxy` dataclass. `running` defaults to `True`. The `_thread` and
`_channel` fields are runtime handles irrelevant to the verified properties
and are omitted. -/

structure Proxy where
  local_host : String
  local_port : Nat
  remote_host : String
  remote_port : Nat
  mode : String
  running : Bool := true
  deriving DecidableEq, Repr

/-! ## The tunnel loop condition

Both background loops in `proxy.py` run
`while proxy.running and ssh.is_connected():`.
Python's `and` is short-circuiting: the right operand is evaluated only when
the left one is truthy, and here the right operand is a *call* of the value
of the attribute `ssh.is_connected`. -/

/-- Evaluation of the loop condition `proxy.running and ssh.is_connected()`. -/
def loopCond (running : Bool) (ssh : SSHProtocol) : Except PyExn Bool :=
  if running then
    match pyCallVal ssh.getattrIsConnected with
    | .error e => .error e
    | .ok v => .ok (pyTruthy v)
  else
    .ok false

/-! ## Forward accept loop (`ProxyAction.forward._loop`, proxy.py lines 48-70)

External events consumed by `server.accept()`: either a client connection
(with its address) or an `OSError` raised by `accept`. -/

inductive AcceptEv where
  | conn (addr : String)
  | oserr
  deriving DecidableEq, Repr

/-- Environment of one run of the forward `_loop`: whether
`server.bind((local_host, local_port))` succeeds, and the stream of
`accept()` outcomes that would be observed if the loop reached them. -/
structure ForwardEnv where
  bindOk : Bool
  accepts : List AcceptEv
  deriving DecidableEq, Repr

/-- Observable result of one run of the forward `_loop`. `proxyRunning` is
the value of `proxy.running` when the thread ends (by return or by an
escaping exception), `spawnedPipes` counts connections handed to `_pipe`,
and `exn` is the exception escaping the loop body, if any. -/
structure ForwardLoopResult where
  bound : Bool
  listening : Bool
  serverClosed : Bool
  proxyRunning : Bool
  spawnedPipes : Nat
  exn : Option PyExn
  deriving DecidableEq, Repr

/-- The `while` part of the forward `_loop`: repeatedly evaluate the
condition; on `True`, run `server.accept()` — an `OSError` breaks out of the
loop, a connection opens a channel and spawns a `_pipe` thread. Returns
(pipes spawned, condition-evaluation exception if one escaped, whether the
accept stream was exhausted with the loop still live). -/
def forwardWhile (ssh : SSHProtocol) (running : Bool) :
    List AcceptEv → Nat → (Nat × Option PyExn × Bool)
  | evs, spawned =>
    match loopCond running ssh with
    | .error e => (spawned, some e, false)
    | .ok false => (spawned, none, false)
    | .ok true =>
      match evs with
      | [] => (spawned, none, true)
      | .oserr :: _ => (spawned, none, false)
      | .conn _ :: rest => forwardWhile ssh running rest (spawned + 1)

/-- One run of the forward `_loop` (proxy.py lines 48-70).
Statement order from the source: create the socket, `setsockopt`,
`bind` (NOT inside the `try`, so a bind failure propagates out of the thread
with `server` unclosed and `proxy.running` untouched), `listen(5)`,
`proxy.running = True`, then `try: while ... finally: server.close();
proxy.running = False`. -/
def forwardLoop (ssh : SSHProtocol) (proxy : Proxy) (env : ForwardEnv) :
    ForwardLoopResult :=
  if env.bindOk then
    let (spawned, exn, _) := forwardWhile ssh true env.accepts 0
    { bound := true
      listening := true
      serverClosed := true
      proxyRunning := false
      spawnedPipes := spawned
      exn := exn }
  else
    { bound := false
      listening := false
      serverClosed := false
      proxyRunning := proxy.running
      spawnedPipes := 0
      exn := some .osErrorAddrInUse }

/-! ## Reverse loop (`ProxyAction.reverse._loop`, proxy.py lines 96-107)

`transport.request_port_forward("0.0.0.0", remote_port)`, then
`proxy.running = True`, then the same `while proxy.running and
ssh.is_connected():` condition. The reverse loop has NO `try/finally`:
an escaping exception leaves `proxy.running` as it was, and the trailing
`proxy.running = False` line is only reached on normal loop exit. -/

inductive Side where
  | a
  | b
  deriving DecidableEq, Repr

inductive RecvResult where
  | data (bytes : List Nat)
  | errRecv
  deriving DecidableEq, Repr

structure Round where
  cancel : Bool
  ready : List (Side × RecvResult)
  deriving DecidableEq, Repr

/-- Whether the two `close()` calls in the `finally` block raise. -/
structure CloseEnv where
  aCloseRaises : Bool
  bCloseRaises : Bool
  deriving DecidableEq, Repr

/-- `endpoint.close()` as a fallible action. -/
def closeAction (raises : Bool) : Except PyExn Unit :=
  if raises then .error .osError else .ok ()

/-- `try: stmt except: pass` — a bare `except` swallows every exception. -/
def pyCatchAll (m : Except PyExn Unit) : Except PyExn Unit :=
  match m with
  | .ok _ => .ok ()
  | .error _ => .ok ()

structure CloseLog where
  aCalls : Nat
  bCalls : Nat
  deriving DecidableEq, Repr

/-- The two close statements of the `finally` block, in source order, in the
`Except` sequencing of Python: an exception escaping a statement skips the
statements after it. Returns how many times each endpoint's `close()` was
invoked and the outcome of the block. -/
def closeBoth (env : CloseEnv) : CloseLog × Except PyExn Unit :=
  match pyCatchAll (closeAction env.aCloseRaises) with
  | .error e => (⟨1, 0⟩, .error e)
  | .ok _ =>
    match pyCatchAll (closeAction env.bCloseRaises) with
    | .error e => (⟨1, 1⟩, .error e)
    | .ok _ => (⟨1, 1⟩, .ok ())

/-- Bytes accumulated by `sendall` on each endpoint during a pipe run:
`toB` is everything written to `b` (data that arrived from `a`), `toA`
everything written to `a`. -/
structure PipeState where
  toB : List Nat
  toA : List Nat
  deriving DecidableEq, Repr

structure PipeResult where
  toB : List Nat
  toA : List Nat
  /-- `true` when the run reached the `finally` block within the schedule;
  `false` when the schedule was exhausted with the loop still live. -/
  terminated : Bool
  aCloseCalls : Nat
  bCloseCalls : Nat
  escapedCloseExn : Bool
  proxyRunning : Bool
  exn : Option PyExn
  deriving DecidableEq, Repr

/-- Outcome of the `for s in r:` body over one round's ready list: either the
whole list was processed (`continue`), or the loop function returned /
raised part-way (`finished`), leaving later ready endpoints unread. -/
inductive InnerOut where
  | continueLoop (s : PipeState)
  | finished (s : PipeState) (exn : Option PyExn)
  deriving Repr

/-- The pipe state an `InnerOut` carries. -/
def innerState : InnerOut → PipeState
  | .continueLoop s => s
  | .finished s _ => s

/-- Whether an `InnerOut` left the `while` loop (by return or exception). -/
def innerStops : InnerOut → Bool
  | .continueLoop _ => false
  | .finished _ _ => true

/-- The `for s in r:` body: `data = s.recv(4096)`; a zero-length read
returns from `_pipe`; a recv error propagates; otherwise the chunk is
forwarded verbatim to the opposite endpoint. -/
def processReady : List (Side × RecvResult) → PipeState → InnerOut
  | [], s => .continueLoop s
  | (_, .errRecv) :: _, s => .finished s (some .osError)
  | (sd, .data d) :: rest, s =>
    if d = [] then
      .finished s none
    else
      match sd with
      | .a => processReady rest { s with toB := s.toB ++ d }
      | .b => processReady rest { s with toA := s.toA ++ d }

/-- The `finally` block: close both endpoints (each wrapped in
`try/except: pass`), then set `proxy.running = False`; the pending
return/exception then completes. -/
def pipeFinish (env : CloseEnv) (running : Bool) (s : PipeState)
    (exn : Option PyExn) : PipeResult :=
  match closeBoth env with
  | (log, .ok _) =>
    { toB := s.toB
      toA := s.toA
      terminated := true
      aCloseCalls := log.aCalls
      bCloseCalls := log.bCalls
      escapedCloseExn := false
      proxyRunning := false
      exn := exn }
  | (log, .error e) =>
    { toB := s.toB
      toA := s.toA
      terminated := true
      aCloseCalls := log.aCalls
      bCloseCalls := log.bCalls
      escapedCloseExn := true
      proxyRunning := running
      exn := some e }

/-- The `while proxy.running:` loop of `_pipe`, driven by the round
schedule. -/
def pipeRunAux (env : CloseEnv) : Bool → List Round → PipeState → PipeResult
  | running, [], s =>
    { toB := s.toB
      toA := s.toA
      terminated := false
      aCloseCalls := 0
      bCloseCalls := 0
      escapedCloseExn := false
      proxyRunning := running
      exn := none }
  | running, r :: rest, s =>
    let running1 := if r.cancel then false else running
    if running1 then
      match processReady r.ready s with
      | .continueLoop s1 => pipeRunAux env running1 rest s1
      | .finished s1 exn => pipeFinish env running1 s1 exn
    else
      pipeFinish env running1 s none

/-- One run of `ProxyAction._pipe` starting with the shared
`proxy.running` flag at `running0`. -/
def pipeRun (env : CloseEnv) (running0 : Bool) (rounds : List Round) :
    PipeResult :=
  pipeRunAux env running0 rounds ⟨[], []⟩

/-! ## Specification-side relay description (for the relay claim)

`specChunksFrom src` follows the specification's words: the chunks the
source endpoint `src` delivers, in arrival order, up to the first
terminating event (EOF or I/O error on either endpoint, or cancellation),
with chunks from the other endpoint interleaved but never mixed in.
It is compared with the embedding `pipeRun` by theorem. -/

/-- Whether the relay terminates within one ready list: it does exactly when
some endpoint reports EOF (zero-length read) or a receive error before the
list is exhausted. -/
def specRoundStops : List (Side × RecvResult) → Bool
  | [] => false
  | (_, .errRecv) :: _ => true
  | (_, .data d) :: rest => if d = [] then true else specRoundStops rest

/-- Chunks delivered from `src` within one ready list, in arrival order, up
to the terminating event if one occurs inside the list. -/
def specRoundChunks (src : Side) :
    List (Side × RecvResult) → List (List Nat)
  | [] => []
  | (_, .errRecv) :: _ => []
  | (sd, .data d) :: rest =>
    if d = [] then
      []
    else if sd = src then
      d :: specRoundChunks src rest
    else
      specRoundChunks src rest

/-- All chunks delivered from `src` over the schedule, in order, up to
termination (EOF or error on either endpoint, or cancellation observed at a
round boundary). -/
def specChunksFrom (src : Side) : Bool → List Round → List (List Nat)
  | _, [] => []
  | running, r :: rest =>
    let running1 := if r.cancel then false else running
    if running1 then
      if specRoundStops r.ready then
        specRoundChunks src r.ready
      else
        specRoundChunks src r.ready ++ specChunksFrom src running1 rest
    else
      []

/-! ## The synchronous part of `ProxyAction.forward` (proxy.py lines 28-75)

`forward` builds the `Proxy` (with `running` at its dataclass default
`True`), defines `_loop`, starts it on a daemon thread, appends the proxy to
`self._rm.state.proxies`, and returns the proxy. Everything that can fail
(bind, accept, channel opening) happens inside `_loop` on the daemon thread;
no statement of `forward` itself raises. -/

structure ForwardCallResult where
  returned : Proxy
  proxiesAfter : List Proxy
  exn : Option PyExn
  deriving DecidableEq, Repr

def ProxyAction.forward (proxies : List Proxy) (local_port : Nat)
    (remote_host : String) (remote_port : Nat)
    (local_host : String := "127.0.0.1") : ForwardCallResult :=
  let proxy : Proxy :=
    { local_host := local_host
      local_port := local_port
      remote_host := remote_host
      remote_port := remote_port
      mode := "forward" }
  { returned := proxy
    proxiesAfter := proxies ++ [proxy]
    exn := none }

/-! ## RemoteState and `RemoteMachine.disconnect`
(`remote_machine/models/remote_state.py`, core.py lines 87-94)

`disconnect` runs `for proxy in self.state.proxies: proxy.running = False`
and then disconnects the SSH layers. The first loop mutates the registered
`Proxy` objects in place; nothing removes entries from `state.proxies`. -/

structure RemoteState where
  cwd : String := "/"
  env : List (String × String) := []
  uid : Option Nat := none
  has_sudo : Bool := false
  proxies : List Proxy := []
  deriving DecidableEq, Repr

/-- Effect of `RemoteMachine.disconnect` on `state.proxies` (core.py lines
87-94): each registered proxy's `running` flag is set to `False`; the list
itself is left as it is (no removal). The second half of `disconnect`
(closing the SSH layers) does not touch the registry. -/
def RemoteMachine.disconnectState (st : RemoteState) : RemoteState :=
  { st with proxies := st.proxies.map (fun p => { p with running := false }) }

/-! ## `ProxyAction.connect_tunnel` (proxy.py lines 135-186)

The chained-session bootstrap. To state that the parent's `_ssh_layers` list
is (or is not) mutated, Python list objects are given reference semantics: a
heap of list cells, where Python's `xs + [y]` allocates a fresh cell and
`xs.append(y)` would mutate one in place. The source line
`rm2._ssh_layers = self._rm._ssh_layers + [ssh_proto]` is the `+` form. -/

/-- One SSH hop as `connect_tunnel` sees it. `connected` models whether the
hop's transport is live (for a hop built by `SSHProtocol.__init__` +
`connect` this is `_client is not None`; for a hop built inside
`connect_tunnel` via `__new__` it is the `transport` attribute's state).
`connect_tunnel` never reads this field — that is part of what is proved. -/
structure SSHLayer where
  host : String
  user : String
  port : Nat
  connected : Bool
  deriving DecidableEq, Repr

/-- A heap of Python list objects holding SSH layers; a reference is an
index into `cells`. -/
structure ListHeap where
  cells : List (List SSHLayer)
  deriving DecidableEq, Repr

/-- Allocate a fresh list object (Python `xs + [y]` evaluates to a new
list). -/
def ListHeap.alloc (h : ListHeap) (xs : List SSHLayer) : Nat × ListHeap :=
  (h.cells.length, ⟨h.cells ++ [xs]⟩)

/-- Dereference a list object. -/
def ListHeap.get (h : ListHeap) (r : Nat) : List SSHLayer :=
  h.cells.getD r []

/-- The slice of a `RemoteMachine` instance that `connect_tunnel` reads and
builds: the reference to its `_ssh_layers` list and the reference identity
of its `state` object (`RemoteState` is mutable and shared by reference in
Python, so identity, not contents, is what sharing means). The `_protocols`
dict copy is omitted (no claim mentions it); the action-wrapper rebinding
statements are NOT omitted — they are where the construction block stops
(see `chainedBootstrap`). -/
structure RMachine where
  sshLayersRef : Nat
  stateRef : Nat
  deriving DecidableEq, Repr

/-- Outcomes of the external operations `connect_tunnel` performs, in source
order: the TCP dial to `(proxy.local_host, proxy.local_port)`, the
`transport.start_client(timeout=10)` handshake, loading the private key
file, and the credential check by `auth_publickey`/`auth_password`. -/
structure TunnelNetEnv where
  dialOk : Bool
  handshakeOk : Bool
  keyLoadOk : Bool
  authOk : Bool
  deriving DecidableEq, Repr

/-- Python truthiness of an optional string (`if key_path:` / `elif
password:`): `None` and the empty string are falsy. -/
def pyTruthyStrOpt : Option String → Bool
  | none => false
  | some s => s.length ≠ 0

/-- The declared parameters of `ProxyAction.connect_tunnel`, in order, from
the source signature (`self` excluded). -/
def connectTunnelParams : List String :=
  ["proxy", "user", "key_path", "password", "port"]

/-- Result of the post-authentication construction block of
`connect_tunnel` (proxy.py lines 161-186), with the partially-built `rm2`
observable: `outcome` is how the block ends, `heap` the list heap after
it, and `rm2Layers` / `rm2StateRef` the `_ssh_layers` list reference and
the `state` object reference that had been assigned to `rm2` before
execution stopped. -/
structure BootstrapResult where
  outcome : Except PyExn RMachine
  heap : ListHeap
  rm2Layers : Nat
  rm2StateRef : Nat
  deriving Repr

/-- The construction block of `connect_tunnel` after authentication
succeeds (proxy.py lines 161-186), in source order: build `ssh_proto` over
the tunnel (host = `proxy.remote_host`, the given user and port, a live
transport); `rm2 = RemoteMachine.__new__(RemoteMachine)` — `__init__`
never runs, so `rm2` has no instance attributes and the class itself
declares only `parent` (core.py line 26);
`rm2._ssh_layers = self._rm._ssh_layers + [ssh_proto]` (line 172,
allocating a fresh list); copy `_protocols` (lines 173-174);
`rm2.state = self._rm.state` (line 175, sharing the parent's state object
by reference); then `rm2.fs = rm2.fs.__class__(rm2, rm2.state)` (line 176)
READS `rm2.fs`, an attribute the `__new__`-built instance does not have —
so the block always raises `AttributeError` there and the function never
reaches `return rm2` (line 186). -/
def chainedBootstrap (parent : RMachine) (h : ListHeap) (proxy : Proxy)
    (user : String) (port : Nat) : BootstrapResult :=
  let newLayer : SSHLayer :=
    { host := proxy.remote_host
      user := user
      port := port
      connected := true }
  let (r, h1) := h.alloc (h.get parent.sshLayersRef ++ [newLayer])
  { outcome := .error .attributeError
    heap := h1
    rm2Layers := r
    rm2StateRef := parent.stateRef }

/-- `ProxyAction.connect_tunnel` (proxy.py lines 135-186). Failures before
construction: a refused dial raises `ConnectionRefusedError`; a failed
handshake or key load raises paramiko's `SSHException`; a rejected
credential raises paramiko's `AuthenticationException`; with neither
credential the method raises `ValueError`. When authentication succeeds,
the construction block `chainedBootstrap` runs — and always raises
`AttributeError` at the `rm2.fs` read of line 176, so the method never
returns a chained machine; the heap still gains the list allocated for
`rm2._ssh_layers` at line 172 before the crash. The heap is returned in
every case so that theorems can speak about mutation. -/
def ProxyAction.connectTunnel (parent : RMachine) (h : ListHeap)
    (env : TunnelNetEnv) (proxy : Proxy) (user : String)
    (key_path : Option String := none) (password : Option String := none)
    (port : Nat := 22) : Except PyExn RMachine × ListHeap :=
  if ¬env.dialOk then
    (.error .connectionRefused, h)
  else if ¬env.handshakeOk then
    (.error .sshException, h)
  else if pyTruthyStrOpt key_path then
    if ¬env.keyLoadOk then
      (.error .sshException, h)
    else if ¬env.authOk then
      (.error .authenticationError, h)
    else
      ((chainedBootstrap parent h proxy user port).outcome,
        (chainedBootstrap parent h proxy user port).heap)
  else if pyTruthyStrOpt password then
    if ¬env.authOk then
      (.error .authenticationError, h)
    else
      ((chainedBootstrap parent h proxy user port).outcome,
        (chainedBootstrap parent h proxy user port).heap)
  else
    (.error .valueError, h)

/-- Whether an embedded call returned normally (`.ok`) rather than raising. -/
def exceptIsOk : Except PyExn RMachine → Bool
  | .ok _ => true
  | .error _ => false

/-! # Helper lemmas -/

/-- With `running = True`, evaluating the loop condition
`proxy.running and ssh.is_connected()` calls the `bool` value of the
`is_connected` property and raises `TypeError`, whatever the connection
state. -/
theorem loopCond_true (ssh : SSHProtocol) :
    loopCond true ssh = .error .typeError := rfl

/-- With `running = False`, the condition short-circuits to `False`. -/
theorem loopCond_false (ssh : SSHProtocol) :
    loopCond false ssh = .ok false := rfl

/-- Both close statements run exactly once and the `finally` close sequence
never lets an exception escape, whether or not the underlying `close()`
calls raise. -/
theorem closeBoth_eq (env : CloseEnv) : closeBoth env = (⟨1, 1⟩, .ok ()) := by
  obtain ⟨x, y⟩ := env
  cases x <;> cases y <;> rfl

theorem pipeFinish_eq (env : CloseEnv) (running : Bool) (s : PipeState)
    (exn : Option PyExn) :
    pipeFinish env running s exn =
      { toB := s.toB
        toA := s.toA
        terminated := true
        aCloseCalls := 1
        bCloseCalls := 1
        escapedCloseExn := false
        proxyRunning := false
        exn := exn } := by
  simp [pipeFinish, closeBoth_eq]

theorem processReady_cons_a (d : List Nat) (hd0 : ¬d = [])
    (tl : List (Side × RecvResult)) (s : PipeState) :
    processReady ((Side.a, .data d) :: tl) s =
      processReady tl { s with toB := s.toB ++ d } := by
  simp [processReady, hd0]

theorem processReady_cons_b (d : List Nat) (hd0 : ¬d = [])
    (tl : List (Side × RecvResult)) (s : PipeState) :
    processReady ((Side.b, .data d) :: tl) s =
      processReady tl { s with toA := s.toA ++ d } := by
  simp [processReady, hd0]

theorem processReady_toB (l : List (Side × RecvResult)) (s : PipeState) :
    (innerState (processReady l s)).toB =
      s.toB ++ (specRoundChunks Side.a l).flatten := by
  induction l generalizing s with
  | nil => simp [processReady, innerState, specRoundChunks]
  | cons hd tl ih =>
    obtain ⟨sd, res⟩ := hd
    cases res with
    | errRecv => simp [processReady, innerState, specRoundChunks]
    | data d =>
      by_cases hd0 : d = []
      · simp [processReady, innerState, specRoundChunks, hd0]
      · cases sd
        · rw [processReady_cons_a d hd0]
          simp [ih, specRoundChunks, hd0, List.append_assoc]
        · rw [processReady_cons_b d hd0]
          simp [ih, specRoundChunks, hd0]

theorem processReady_toA (l : List (Side × RecvResult)) (s : PipeState) :
    (innerState (processReady l s)).toA =
      s.toA ++ (specRoundChunks Side.b l).flatten := by
  induction l generalizing s with
  | nil => simp [processReady, innerState, specRoundChunks]
  | cons hd tl ih =>
    obtain ⟨sd, res⟩ := hd
    cases res with
    | errRecv => simp [processReady, innerState, specRoundChunks]
    | data d =>
      by_cases hd0 : d = []
      · simp [processReady, innerState, specRoundChunks, hd0]
      · cases sd
        · rw [processReady_cons_a d hd0]
          simp [ih, specRoundChunks, hd0]
        · rw [processReady_cons_b d hd0]
          simp [ih, specRoundChunks, hd0, List.append_assoc]

theorem processReady_stops (l : List (Side × RecvResult)) (s : PipeState) :
    innerStops (processReady l s) = specRoundStops l := by
  induction l generalizing s with
  | nil => simp [processReady, innerStops, specRoundStops]
  | cons hd tl ih =>
    obtain ⟨sd, res⟩ := hd
    cases res with
    | errRecv => simp [processReady, innerStops, specRoundStops]
    | data d =>
      by_cases hd0 : d = []
      · simp [processReady, innerStops, specRoundStops, hd0]
      · cases sd
        · rw [processReady_cons_a d hd0]
          simp [ih, specRoundStops, hd0]
        · rw [processReady_cons_b d hd0]
          simp [ih, specRoundStops, hd0]

theorem pipeRunAux_toB (env : CloseEnv) (running : Bool) (rounds : List Round)
    (s : PipeState) :
    (pipeRunAux env running rounds s).toB =
      s.toB ++ (specChunksFrom Side.a running rounds).flatten := by
  induction rounds generalizing running s with
  | nil => simp [pipeRunAux, specChunksFrom]
  | cons r rest ih =>
    obtain ⟨c, ready⟩ := r
    cases c with
    | true => simp [pipeRunAux, specChunksFrom, pipeFinish_eq]
    | false =>
      cases running with
      | false => simp [pipeRunAux, specChunksFrom, pipeFinish_eq]
      | true =>
        have hstop := processReady_stops ready s
        have htb := processReady_toB ready s
        cases hp : processReady ready s with
        | continueLoop s1 =>
          rw [hp] at hstop htb
          simp only [innerState, innerStops] at hstop htb
          simp [pipeRunAux, specChunksFrom, hp, ← hstop, ih, htb,
            List.append_assoc]
        | finished s1 exn =>
          rw [hp] at hstop htb
          simp only [innerState, innerStops] at hstop htb
          simp [pipeRunAux, specChunksFrom, hp, ← hstop, pipeFinish_eq, htb]

theorem pipeRunAux_toA (env : CloseEnv) (running : Bool) (rounds : List Round)
    (s : PipeState) :
    (pipeRunAux env running rounds s).toA =
      s.toA ++ (specChunksFrom Side.b running rounds).flatten := by
  induction rounds generalizing running s with
  | nil => simp [pipeRunAux, specChunksFrom]
  | cons r rest ih =>
    obtain ⟨c, ready⟩ := r
    cases c with
    | true => simp [pipeRunAux, specChunksFrom, pipeFinish_eq]
    | false =>
      cases running with
      | false => simp [pipeRunAux, specChunksFrom, pipeFinish_eq]
      | true =>
        have hstop := processReady_stops ready s
        have hta := processReady_toA ready s
        cases hp : processReady ready s with
        | continueLoop s1 =>
          rw [hp] at hstop hta
          simp only [innerState, innerStops] at hstop hta
          simp [pipeRunAux, specChunksFrom, hp, ← hstop, ih, hta,
            List.append_assoc]
        | finished s1 exn =>
          rw [hp] at hstop hta
          simp only [innerState, innerStops] at hstop hta
          simp [pipeRunAux, specChunksFrom, hp, ← hstop, pipeFinish_eq, hta]

/-- Any pipe run that reaches the `finally` block closes each endpoint
exactly once, lets no exception escape the close sequence, and leaves the
shared `proxy.running` flag `False`. -/
theorem pipeRunAux_terminated (env : CloseEnv) (running : Bool)
    (rounds : List Round) (s : PipeState)
    (h : (pipeRunAux env running rounds s).terminated = true) :
    (pipeRunAux env running rounds s).aCloseCalls = 1 ∧
    (pipeRunAux env running rounds s).bCloseCalls = 1 ∧
    (pipeRunAux env running rounds s).escapedCloseExn = false ∧
    (pipeRunAux env running rounds s).proxyRunning = false := by
  induction rounds generalizing running s with
  | nil => simp [pipeRunAux] at h
  | cons r rest ih =>
    obtain ⟨c, ready⟩ := r
    cases c with
    | true => simp [pipeRunAux, pipeFinish_eq]
    | false =>
      cases running with
      | false => simp [pipeRunAux, pipeFinish_eq]
      | true =>
        cases hp : processReady ready s with
        | continueLoop s1 =>
          simp only [pipeRunAux, hp, if_pos] at h ⊢
          exact ih true s1 h
        | finished s1 exn =>
          simp [pipeRunAux, hp, pipeFinish_eq]

/-! # Claims -/

/-- C1: for every pipe spawned by a forward tunnel between an accepted
client socket (endpoint `a`) and the channel to the destination
(endpoint `b`), and every schedule of select/recv events, the bytes the
pipe writes to the destination are exactly the client's chunks,
concatenated in arrival order (unaltered, in order), and symmetrically the
bytes written back to the client are exactly the destination's chunks in
order. -/
theorem C1_pipe_relays_bytes_in_order (env : CloseEnv) (running0 : Bool)
    (rounds : List Round) :
    (pipeRun env running0 rounds).toB =
      (specChunksFrom Side.a running0 rounds).flatten ∧
    (pipeRun env running0 rounds).toA =
      (specChunksFrom Side.b running0 rounds).flatten := by
  constructor
  · simpa using pipeRunAux_toB env running0 rounds ⟨[], []⟩
  · simpa using pipeRunAux_toA env running0 rounds ⟨[], []⟩

/-- C2 counterexample: a pipe whose `a` endpoint reports EOF on the first
select round terminates — and the shared `proxy.running` flag, which is
the owning Tunnel's loop flag, is `False` afterwards, not `True` as the
claim states: `_pipe`'s `finally` block executes `proxy.running = False`. -/
theorem C2_counterexample_pipe_end_clears_tunnel_flag :
    (pipeRun ⟨false, false⟩ true
      [⟨false, [(Side.a, RecvResult.data [])]⟩]).terminated = true ∧
    ¬ (pipeRun ⟨false, false⟩ true
      [⟨false, [(Side.a, RecvResult.data [])]⟩]).proxyRunning = true := by
  decide

/-- C2 amended: termination of any one Pipe is NOT local to that Pipe — the
pipe's `finally` sets the shared `proxy.running` flag to `False`, after
which the owning Tunnel's loop condition evaluates to `False` (so the
accept loop would exit without accepting further connections, and sibling
pipes observe the cleared flag at their next while-check). -/
theorem C2_amended_pipe_end_stops_tunnel (env : CloseEnv) (running0 : Bool)
    (rounds : List Round) (ssh : SSHProtocol)
    (h : (pipeRun env running0 rounds).terminated = true) :
    (pipeRun env running0 rounds).proxyRunning = false ∧
    loopCond (pipeRun env running0 rounds).proxyRunning ssh = .ok false := by
  have h4 : (pipeRun env running0 rounds).proxyRunning = false :=
    (pipeRunAux_terminated env running0 rounds ⟨[], []⟩ h).2.2.2
  refine ⟨h4, ?_⟩
  rw [h4]
  exact loopCond_false ssh

/-- Witness for the amended C2 at a concrete run: the `b` endpoint fails
with a recv error on the first round. -/
theorem C2_amended_pipe_end_stops_tunnel_witness :
    (pipeRun ⟨false, false⟩ true
      [⟨false, [(Side.b, RecvResult.errRecv)]⟩]).proxyRunning = false ∧
    loopCond (pipeRun ⟨false, false⟩ true
        [⟨false, [(Side.b, RecvResult.errRecv)]⟩]).proxyRunning
      ⟨"host", "user", none, none, 22, some ()⟩ = .ok false :=
  C2_amended_pipe_end_stops_tunnel _ _ _ _ (by decide)

/-- C7: every pipe run that terminates — by EOF, by a recv error on either
side, or by cancellation through the shared running flag — calls `close()`
on each of its two endpoints exactly once, and no exception escapes the
close path, even when both `close()` calls themselves raise. -/
theorem C7_pipe_closes_both_endpoints_once (env : CloseEnv) (running0 : Bool)
    (rounds : List Round)
    (h : (pipeRun env running0 rounds).terminated = true) :
    (pipeRun env running0 rounds).aCloseCalls = 1 ∧
    (pipeRun env running0 rounds).bCloseCalls = 1 ∧
    (pipeRun env running0 rounds).escapedCloseExn = false := by
  have := pipeRunAux_terminated env running0 rounds ⟨[], []⟩ h
  exact ⟨this.1, this.2.1, this.2.2.1⟩

/-- Witness for C7 at a concrete run: cancellation before the first round,
with BOTH endpoint `close()` calls raising. -/
theorem C7_pipe_closes_both_endpoints_once_witness :
    (pipeRun ⟨true, true⟩ true [⟨true, []⟩]).aCloseCalls = 1 ∧
    (pipeRun ⟨true, true⟩ true [⟨true, []⟩]).bCloseCalls = 1 ∧
    (pipeRun ⟨true, true⟩ true [⟨true, []⟩]).escapedCloseExn = false :=
  C7_pipe_closes_both_endpoints_once ⟨true, true⟩ true [⟨true, []⟩] (by decide)

/-- C4 counterexample: `forward` with a port whose bind will fail raises
nothing to its caller — it returns the Proxy (running still `True`) and
registers it; the bind failure surfaces only as an `OSError` raised on the
daemon thread (where it also skips the `finally`, leaving the flag `True`).
No AddressInUse exception reaches the caller, and the codebase defines no
class of that name. -/
theorem C4_counterexample_bind_failure_not_synchronous :
    (ProxyAction.forward [] 9000 "10.0.0.5" 80).exn = none ∧
    (ProxyAction.forward [] 9000 "10.0.0.5" 80).returned.running = true ∧
    (ProxyAction.forward [] 9000 "10.0.0.5" 80).proxiesAfter =
      [⟨"127.0.0.1", 9000, "10.0.0.5", 80, "forward", true⟩] ∧
    (forwardLoop ⟨"host", "user", none, none, 22, some ()⟩
        (ProxyAction.forward [] 9000 "10.0.0.5" 80).returned ⟨false, []⟩).exn =
      some PyExn.osErrorAddrInUse ∧
    (forwardLoop ⟨"host", "user", none, none, 22, some ()⟩
        (ProxyAction.forward [] 9000 "10.0.0.5" 80).returned
        ⟨false, []⟩).proxyRunning = true :=
  ⟨rfl, rfl, rfl, rfl, rfl⟩

/-- C4 amended: a bind failure is asynchronous and untyped: `forward`
itself always returns the Proxy with no exception and appends it to the
registry; the failing `bind` happens on the background thread, where it
raises a plain `OSError` (EADDRINUSE) that kills the thread before the
`try`, so the listener is never closed by the loop, no pipe is spawned, and
`proxy.running` keeps the value it was created with. -/
theorem C4_amended_bind_failure_async (proxies : List Proxy) (lp : Nat)
    (rh : String) (rp : Nat) (lh : String) (ssh : SSHProtocol)
    (env : ForwardEnv) (hbind : env.bindOk = false) :
    (ProxyAction.forward proxies lp rh rp lh).exn = none ∧
    (ProxyAction.forward proxies lp rh rp lh).proxiesAfter =
      proxies ++ [(ProxyAction.forward proxies lp rh rp lh).returned] ∧
    (forwardLoop ssh (ProxyAction.forward proxies lp rh rp lh).returned
      env).exn = some PyExn.osErrorAddrInUse ∧
    (forwardLoop ssh (ProxyAction.forward proxies lp rh rp lh).returned
      env).spawnedPipes = 0 ∧
    (forwardLoop ssh (ProxyAction.forward proxies lp rh rp lh).returned
      env).serverClosed = false ∧
    (forwardLoop ssh (ProxyAction.forward proxies lp rh rp lh).returned
      env).proxyRunning = true := by
  obtain ⟨b, accepts⟩ := env
  simp only at hbind
  subst hbind
  simp [ProxyAction.forward, forwardLoop]

/-- Witness for the amended C4 at a concrete second `forward` call on an
occupied port. -/
theorem C4_amended_bind_failure_async_witness :
    (ProxyAction.forward
      [⟨"127.0.0.1", 8080, "192.168.1.2", 443, "forward", true⟩]
      8080 "192.168.1.2" 443 "127.0.0.1").exn = none ∧
    (ProxyAction.forward
      [⟨"127.0.0.1", 8080, "192.168.1.2", 443, "forward", true⟩]
      8080 "192.168.1.2" 443 "127.0.0.1").proxiesAfter =
      [⟨"127.0.0.1", 8080, "192.168.1.2", 443, "forward", true⟩] ++
      [(ProxyAction.forward
        [⟨"127.0.0.1", 8080, "192.168.1.2", 443, "forward", true⟩]
        8080 "192.168.1.2" 443 "127.0.0.1").returned] ∧
    (forwardLoop ⟨"gw", "root", none, none, 22, some ()⟩
      (ProxyAction.forward
        [⟨"127.0.0.1", 8080, "192.168.1.2", 443, "forward", true⟩]
        8080 "192.168.1.2" 443 "127.0.0.1").returned
      ⟨false, [AcceptEv.conn "c2"]⟩).exn = some PyExn.osErrorAddrInUse ∧
    (forwardLoop ⟨"gw", "root", none, none, 22, some ()⟩
      (ProxyAction.forward
        [⟨"127.0.0.1", 8080, "192.168.1.2", 443, "forward", true⟩]
        8080 "192.168.1.2" 443 "127.0.0.1").returned
      ⟨false, [AcceptEv.conn "c2"]⟩).spawnedPipes = 0 ∧
    (forwardLoop ⟨"gw", "root", none, none, 22, some ()⟩
      (ProxyAction.forward
        [⟨"127.0.0.1", 8080, "192.168.1.2", 443, "forward", true⟩]
        8080 "192.168.1.2" 443 "127.0.0.1").returned
      ⟨false, [AcceptEv.conn "c2"]⟩).serverClosed = false ∧
    (forwardLoop ⟨"gw", "root", none, none, 22, some ()⟩
      (ProxyAction.forward
        [⟨"127.0.0.1", 8080, "192.168.1.2", 443, "forward", true⟩]
        8080 "192.168.1.2" 443 "127.0.0.1").returned
      ⟨false, [AcceptEv.conn "c2"]⟩).proxyRunning = true :=
  C4_amended_bind_failure_async _ _ _ _ _ _ _ rfl

/-- C10 counterexample: one tunnel is created and registered; the session
then disconnects, which stops the tunnel (`running = False`); yet the
tunnel's entry is still present in `state.proxies` — a stale entry remains,
so the registry is append-only, contrary to the claim. -/
theorem C10_counterexample_stale_entry_remains :
    (RemoteMachine.disconnectState
      { proxies := (ProxyAction.forward [] 9000 "10.0.0.5" 80).proxiesAfter
        : RemoteState }).proxies =
      [⟨"127.0.0.1", 9000, "10.0.0.5", 80, "forward", false⟩] ∧
    (RemoteMachine.disconnectState
      { proxies := (ProxyAction.forward [] 9000 "10.0.0.5" 80).proxiesAfter
        : RemoteState }).proxies ≠ [] := by
  constructor
  · rfl
  · decide

/-- C10 amended: stopping Tunnels (the `disconnect` path sets every
registered proxy's `running` flag to `False`) never removes entries: the
registry keeps exactly the same length and every entry survives with its
flag cleared — `state.proxies` is append-only. -/
theorem C10_amended_registry_append_only (st : RemoteState) :
    ((RemoteMachine.disconnectState st).proxies).length = st.proxies.length ∧
    ((RemoteMachine.disconnectState st).proxies.all fun p => !p.running)
      = true := by
  constructor
  · simp [RemoteMachine.disconnectState]
  · simp [RemoteMachine.disconnectState, List.all_eq_true]

/-- The post-authentication construction block always ends in
`AttributeError`; the child's would-be stack was allocated as the parent's
stack plus the one new hop, and the parent's state object reference had
been assigned to the child. -/
theorem chainedBootstrap_eq (parent : RMachine) (h : ListHeap)
    (proxy : Proxy) (user : String) (port : Nat) :
    chainedBootstrap parent h proxy user port =
      { outcome := .error .attributeError
        heap := ⟨h.cells ++ [h.get parent.sshLayersRef ++
          [⟨proxy.remote_host, user, port, true⟩]]⟩
        rm2Layers := h.cells.length
        rm2StateRef := parent.stateRef } := rfl

/-- `connect_tunnel` never returns normally, whatever the arguments and
whatever the outcomes of the external operations: every pre-auth failure
raises, and the post-auth construction block raises `AttributeError` at
the `rm2.fs` read. -/
theorem connectTunnel_never_ok (parent : RMachine) (h : ListHeap)
    (env : TunnelNetEnv) (proxy : Proxy) (user : String)
    (key_path password : Option String) (port : Nat) :
    exceptIsOk (ProxyAction.connectTunnel parent h env proxy user key_path
      password port).1 = false := by
  unfold ProxyAction.connectTunnel
  repeat' split
  all_goals rfl

/-- C5: `connect_tunnel` invoked with an incorrect credential — the dial
and handshake succeed but the authentication step rejects it — fails with
the authentication error (paramiko's `AuthenticationException`, the
specification's `AuthenticationError`), and the parent session's layer
stack is left unchanged by the failed call: the heap comes back untouched,
so the parent's `_ssh_layers` has the same layers and the same length. -/
theorem C5_auth_failure_leaves_parent_stack (parent : RMachine) (h : ListHeap)
    (env : TunnelNetEnv) (proxy : Proxy) (user : String)
    (key_path password : Option String) (port : Nat)
    (hdial : env.dialOk = true) (hshake : env.handshakeOk = true)
    (hkey : env.keyLoadOk = true) (hauth : env.authOk = false)
    (hcred : pyTruthyStrOpt key_path = true ∨ pyTruthyStrOpt password = true) :
    ProxyAction.connectTunnel parent h env proxy user key_path password port =
      (.error .authenticationError, h) ∧
    (ProxyAction.connectTunnel parent h env proxy user key_path password
      port).2.get parent.sshLayersRef = h.get parent.sshLayersRef ∧
    ((ProxyAction.connectTunnel parent h env proxy user key_path password
      port).2.get parent.sshLayersRef).length =
      (h.get parent.sshLayersRef).length := by
  obtain ⟨d, sh, k, a⟩ := env
  simp only at hdial hshake hkey hauth
  subst hdial hshake hkey hauth
  have hmain : ProxyAction.connectTunnel parent h ⟨true, true, true, false⟩
      proxy user key_path password port = (.error .authenticationError, h) := by
    rcases hcred with hc | hc
    · simp [ProxyAction.connectTunnel, hc]
    · by_cases hk : pyTruthyStrOpt key_path <;>
        simp [ProxyAction.connectTunnel, hk, hc]
  exact ⟨hmain, by rw [hmain], by rw [hmain]⟩

/-- Witness for C5: a one-hop parent, a forward tunnel proxy, and a wrong
password; the call fails with the authentication error and the parent's
single-layer stack is untouched. -/
theorem C5_auth_failure_leaves_parent_stack_witness :
    ProxyAction.connectTunnel ⟨0, 0⟩ ⟨[[⟨"gw", "root", 22, true⟩]]⟩
      ⟨true, true, true, false⟩
      ⟨"127.0.0.1", 9000, "10.0.0.5", 22, "forward", true⟩
      "root" none (some "wrongpass") 22 =
      (.error .authenticationError, ⟨[[⟨"gw", "root", 22, true⟩]]⟩) ∧
    (ProxyAction.connectTunnel ⟨0, 0⟩ ⟨[[⟨"gw", "root", 22, true⟩]]⟩
      ⟨true, true, true, false⟩
      ⟨"127.0.0.1", 9000, "10.0.0.5", 22, "forward", true⟩
      "root" none (some "wrongpass") 22).2.get 0 =
      ListHeap.get ⟨[[⟨"gw", "root", 22, true⟩]]⟩ 0 ∧
    ((ProxyAction.connectTunnel ⟨0, 0⟩ ⟨[[⟨"gw", "root", 22, true⟩]]⟩
      ⟨true, true, true, false⟩
      ⟨"127.0.0.1", 9000, "10.0.0.5", 22, "forward", true⟩
      "root" none (some "wrongpass") 22).2.get 0).length =
      (ListHeap.get ⟨[[⟨"gw", "root", 22, true⟩]]⟩ 0).length :=
  C5_auth_failure_leaves_parent_stack _ _ _ _ _ _ _ _
    rfl rfl rfl rfl (Or.inr (by decide))

/-- C6 (code bug): for every call that passes authentication, the
construction does build the child's stack as a fresh list equal to the
parent's stack plus exactly one new hop — length parent + 1, with the
parent's list object unmutated (proxy.py line 172) — but `connect_tunnel`
then raises `AttributeError` at the `rm2.fs` read of line 176 (the
`__new__`-built instance has no `fs` attribute), so no chained session is
ever successfully returned, contradicting the method's own docstring
("Returns: RemoteMachine connected over the tunnel"), which is what the
claim describes. -/
theorem C6_connect_tunnel_crashes_before_returning (parent : RMachine)
    (h : ListHeap) (env : TunnelNetEnv) (proxy : Proxy) (user : String)
    (key_path password : Option String) (port : Nat)
    (hdial : env.dialOk = true) (hshake : env.handshakeOk = true)
    (hkey : env.keyLoadOk = true) (hauth : env.authOk = true)
    (hcred : pyTruthyStrOpt key_path = true ∨ pyTruthyStrOpt password = true)
    (href : parent.sshLayersRef < h.cells.length) :
    ProxyAction.connectTunnel parent h env proxy user key_path password port =
      (.error .attributeError,
        (chainedBootstrap parent h proxy user port).heap) ∧
    (chainedBootstrap parent h proxy user port).heap.get
        (chainedBootstrap parent h proxy user port).rm2Layers =
      h.get parent.sshLayersRef ++ [⟨proxy.remote_host, user, port, true⟩] ∧
    ((chainedBootstrap parent h proxy user port).heap.get
        (chainedBootstrap parent h proxy user port).rm2Layers).length =
      (h.get parent.sshLayersRef).length + 1 ∧
    (chainedBootstrap parent h proxy user port).heap.get
        parent.sshLayersRef =
      h.get parent.sshLayersRef := by
  obtain ⟨d, sh, k, a⟩ := env
  simp only at hdial hshake hkey hauth
  subst hdial hshake hkey hauth
  refine ⟨?_, ?_, ?_, ?_⟩
  · rcases hcred with hc | hc
    · simp [ProxyAction.connectTunnel, hc, chainedBootstrap_eq]
    · by_cases hk : pyTruthyStrOpt key_path <;>
        simp [ProxyAction.connectTunnel, hk, hc, chainedBootstrap_eq]
  · rw [chainedBootstrap_eq]
    simp [ListHeap.get, List.getD_eq_getElem?_getD, List.getElem?_concat_length]
  · rw [chainedBootstrap_eq]
    simp [ListHeap.get, List.getD_eq_getElem?_getD, List.getElem?_concat_length]
  · rw [chainedBootstrap_eq]
    simp only [ListHeap.get, List.getD_eq_getElem?_getD]
    rw [List.getElem?_append_left href]

/-- Witness for C6 at the failing input: a one-hop parent, a forward
tunnel to `10.0.0.5`, user `admin`, a correct password; the call ends in
`AttributeError`, with the child's would-be stack = parent hop + new hop
and the parent's cell untouched. -/
theorem C6_connect_tunnel_crashes_before_returning_witness :
    ProxyAction.connectTunnel ⟨0, 3⟩ ⟨[[⟨"gw", "root", 22, true⟩]]⟩
      ⟨true, true, true, true⟩
      ⟨"127.0.0.1", 9000, "10.0.0.5", 22, "forward", true⟩
      "admin" none (some "pw") 22 =
      (.error .attributeError,
        (chainedBootstrap ⟨0, 3⟩ ⟨[[⟨"gw", "root", 22, true⟩]]⟩
          ⟨"127.0.0.1", 9000, "10.0.0.5", 22, "forward", true⟩
          "admin" 22).heap) ∧
    (chainedBootstrap ⟨0, 3⟩ ⟨[[⟨"gw", "root", 22, true⟩]]⟩
        ⟨"127.0.0.1", 9000, "10.0.0.5", 22, "forward", true⟩
        "admin" 22).heap.get
      (chainedBootstrap ⟨0, 3⟩ ⟨[[⟨"gw", "root", 22, true⟩]]⟩
        ⟨"127.0.0.1", 9000, "10.0.0.5", 22, "forward", true⟩
        "admin" 22).rm2Layers =
      ListHeap.get ⟨[[⟨"gw", "root", 22, true⟩]]⟩ 0 ++
        [⟨"10.0.0.5", "admin", 22, true⟩] ∧
    ((chainedBootstrap ⟨0, 3⟩ ⟨[[⟨"gw", "root", 22, true⟩]]⟩
        ⟨"127.0.0.1", 9000, "10.0.0.5", 22, "forward", true⟩
        "admin" 22).heap.get
      (chainedBootstrap ⟨0, 3⟩ ⟨[[⟨"gw", "root", 22, true⟩]]⟩
        ⟨"127.0.0.1", 9000, "10.0.0.5", 22, "forward", true⟩
        "admin" 22).rm2Layers).length =
      (ListHeap.get ⟨[[⟨"gw", "root", 22, true⟩]]⟩ 0).length + 1 ∧
    (chainedBootstrap ⟨0, 3⟩ ⟨[[⟨"gw", "root", 22, true⟩]]⟩
        ⟨"127.0.0.1", 9000, "10.0.0.5", 22, "forward", true⟩
        "admin" 22).heap.get 0 =
      ListHeap.get ⟨[[⟨"gw", "root", 22, true⟩]]⟩ 0 :=
  C6_connect_tunnel_crashes_before_returning ⟨0, 3⟩
    ⟨[[⟨"gw", "root", 22, true⟩]]⟩ ⟨true, true, true, true⟩
    ⟨"127.0.0.1", 9000, "10.0.0.5", 22, "forward", true⟩
    "admin" none (some "pw") 22
    rfl rfl rfl rfl (Or.inr (by decide)) (by decide)

/-- C8 counterexample: a parent whose only transport hop has disconnected
(and whose tunnel loop is therefore dead, so the dial to the tunnel's local
endpoint is refused). `connect_tunnel` fails with the refused-dial
`OSError` (`ConnectionRefusedError`), NOT with `ConnectionUnavailable`:
the method performs no connectivity check and the codebase defines no
`ConnectionUnavailable` class. -/
theorem C8_counterexample_refused_not_unavailable :
    (ProxyAction.connectTunnel ⟨0, 0⟩ ⟨[[⟨"gw", "root", 22, false⟩]]⟩
      ⟨false, false, false, false⟩
      ⟨"127.0.0.1", 9000, "10.0.0.5", 22, "forward", false⟩
      "root" none (some "pw") 22).1 = .error .connectionRefused ∧
    (ProxyAction.connectTunnel ⟨0, 0⟩ ⟨[[⟨"gw", "root", 22, false⟩]]⟩
      ⟨false, false, false, false⟩
      ⟨"127.0.0.1", 9000, "10.0.0.5", 22, "forward", false⟩
      "root" none (some "pw") 22).1 ≠ .error .connectionUnavailable := by
  refine ⟨rfl, fun hc => ?_⟩
  have h1 : (ProxyAction.connectTunnel ⟨0, 0⟩ ⟨[[⟨"gw", "root", 22, false⟩]]⟩
      ⟨false, false, false, false⟩
      ⟨"127.0.0.1", 9000, "10.0.0.5", 22, "forward", false⟩
      "root" none (some "pw") 22).1 = .error .connectionRefused := rfl
  rw [h1] at hc
  exact PyExn.noConfusion (Except.error.inj hc)

/-- C8 amended: `connect_tunnel` on a Tunnel whose local endpoint does not
accept the dial (as when the owning transport has disconnected and the
tunnel loop has died, closing the listener) fails synchronously with the
dial's `ConnectionRefusedError` and returns at once with the heap
untouched — it does not hang, but the error is the raw `OSError`, not a
`ConnectionUnavailable`; the connectivity of the owning layers is never
consulted (the theorem holds for every heap, connected or not). -/
theorem C8_amended_dial_failure_synchronous (parent : RMachine) (h : ListHeap)
    (env : TunnelNetEnv) (proxy : Proxy) (user : String)
    (key_path password : Option String) (port : Nat)
    (hdial : env.dialOk = false) :
    ProxyAction.connectTunnel parent h env proxy user key_path password port =
      (.error .connectionRefused, h) := by
  obtain ⟨d, sh, k, a⟩ := env
  simp only at hdial
  subst hdial
  simp [ProxyAction.connectTunnel]

/-- Witness for the amended C8: a two-hop parent with both hops
disconnected; the dial is refused and the call returns the refused error
with the heap unchanged. -/
theorem C8_amended_dial_failure_synchronous_witness :
    ProxyAction.connectTunnel ⟨1, 4⟩
      ⟨[[⟨"gw", "root", 22, false⟩],
        [⟨"gw", "root", 22, false⟩, ⟨"10.0.0.5", "admin", 22, false⟩]]⟩
      ⟨false, true, true, true⟩
      ⟨"127.0.0.1", 9001, "10.0.0.9", 22, "forward", false⟩
      "admin" (some "key.pem") none 22 =
      (.error .connectionRefused,
        ⟨[[⟨"gw", "root", 22, false⟩],
          [⟨"gw", "root", 22, false⟩, ⟨"10.0.0.5", "admin", 22, false⟩]]⟩) :=
  C8_amended_dial_failure_synchronous _ _ _ _ _ _ _ _ rfl

/-- C9 counterexample: `connect_tunnel` declares exactly the parameters
`(proxy, user, key_path, password, port)` — none of them selects sharing
versus forking of the session state. Two calls whose arguments differ in
every parameter both have their construction block assign the parent's own
state object reference to the child being built (`rm2StateRef` 5 and 7,
the parents' own), before both calls end in the construction block's
`AttributeError` rather than returning a session — so the caller has no
way to request a fork, the sharing assignment is implicit and constant,
and no child whose state is "shared iff the caller requested sharing" ever
exists. -/
theorem C9_counterexample_no_sharing_parameter :
    connectTunnelParams = ["proxy", "user", "key_path", "password", "port"] ∧
    (chainedBootstrap ⟨0, 5⟩ ⟨[[]]⟩
      ⟨"127.0.0.1", 7000, "inner1", 22, "forward", true⟩
      "alice" 22).rm2StateRef = 5 ∧
    (chainedBootstrap ⟨0, 7⟩ ⟨[[⟨"gw", "bob", 2200, true⟩]]⟩
      ⟨"localhost", 7001, "inner2", 2222, "reverse", false⟩
      "bob" 2222).rm2StateRef = 7 ∧
    (ProxyAction.connectTunnel ⟨0, 5⟩ ⟨[[]]⟩ ⟨true, true, true, true⟩
      ⟨"127.0.0.1", 7000, "inner1", 22, "forward", true⟩
      "alice" (some "k1.pem") none 22).1 = .error .attributeError ∧
    (ProxyAction.connectTunnel ⟨0, 7⟩ ⟨[[⟨"gw", "bob", 2200, true⟩]]⟩
      ⟨true, true, true, true⟩
      ⟨"localhost", 7001, "inner2", 2222, "reverse", false⟩
      "bob" none (some "pw2") 2222).1 = .error .attributeError :=
  ⟨rfl, rfl, rfl, rfl, rfl⟩

/-- C9 amended: `connect_tunnel` declares only
`(proxy, user, key_path, password, port)` — no parameter chooses between
sharing and forking. Its construction block unconditionally assigns the
parent's `ExecutionState` by reference to the child being built
(`rm2.state = self._rm.state`, proxy.py line 175), and the call never
returns a chained session at all (every argument and external-outcome
combination ends in an error, the post-auth path in the `AttributeError`
of line 176) — so no sharing choice is ever offered to or exercised by a
caller. -/
theorem C9_amended_sharing_implicit_never_offered (parent : RMachine)
    (h : ListHeap) (env : TunnelNetEnv) (proxy : Proxy) (user : String)
    (key_path password : Option String) (port : Nat) :
    (chainedBootstrap parent h proxy user port).rm2StateRef =
      parent.stateRef ∧
    exceptIsOk (ProxyAction.connectTunnel parent h env proxy user key_path
      password port).1 = false :=
  ⟨rfl, connectTunnel_never_ok parent h env proxy user key_path password port⟩

end RemoteMachineModel
